import Mathlib

/-!
# Trace-context propagation in the opentracing example server

A shallow embedding of `main.go`: the HTTP handlers `homeHandler`,
`serviceHandler` and `dbHandler`, the helper `sleepMilli`, and the routing set
up by `main`.  A handler is a function from its inputs (the tracer, the
outcomes of the library calls it makes, the inbound request) to the list of
effects it performs, in program order, together with the way it exits.
-/

namespace OpentracingExample

/-! ## Data model -/

/-- Modelled from the spec: the `SpanContext` of the tracing library (section 3,
fields TraceID, SpanID and the optional ParentSpanID; baggage is not used by
the handlers and is left out). -/
structure SpanContext where
  traceID : Nat
  spanID : Nat
  parentSpanID : Option Nat
  deriving DecidableEq, Repr

/-- Modelled from the spec: the `Span` of the tracing library, reduced to its
operation name and its context (what `sp.Context()` returns). -/
structure Span where
  operationName : String
  context : SpanContext
  deriving DecidableEq, Repr

/-- The carrier formats of the tracing library; the handlers only use `TextMap`. -/
inductive Format where
  | binary
  | textMap
  | httpHeaders
  deriving DecidableEq, Repr

/-- The header of an HTTP request, as key/value pairs (`http.Header`). -/
abbrev Header := List (String × String)

/-- The options of `opentracing.StartSpan`; the handlers only use `ChildOf`.
The referenced context is the (possibly nil) value that was passed. -/
inductive StartSpanOption where
  | childOf (ctx : Option SpanContext)
  deriving DecidableEq, Repr

/-- The tracer interface the handlers program against (`opentracing.Tracer`),
taken as a parameter.  `σ` is the internal state of the process-wide tracer;
every call reads the state the tracer is in when the call is made.  `inject`
returns the carrier as it is after the call and the error; `extract` returns
the two results of the Go call, a possibly nil context and an error. -/
structure Tracer (σ : Type) where
  startSpan : σ → String → List StartSpanOption → Span
  inject : σ → SpanContext → Format → Header → Header × Option String
  extract : σ → Format → Header → Option SpanContext × Option String

/-- The parsed URL of a request: `r.URL`. -/
structure URL where
  scheme : String
  host : String
  path : String
  deriving DecidableEq, Repr

/-- An HTTP request, inbound or outbound (`http.Request`). -/
structure Request where
  method : String
  url : URL
  header : Header
  deriving DecidableEq, Repr

/-- The effects a handler performs. -/
inductive Event where
  /-- The call `w.Write(bytes)` on the response writer. -/
  | write (bytes : String)
  /-- The call `opentracing.StartSpan(opName, opts...)`, which returned `sp`. -/
  | startSpan (opName : String) (opts : List StartSpanOption) (sp : Span)
  /-- The call `sp.Finish()`. -/
  | finish (sp : Span)
  /-- The call `sp.Tracer().Inject(ctx, format, HTTPHeadersCarrier(req.Header))`,
  with the request as it was before the call. -/
  | inject (ctx : SpanContext) (format : Format) (req : Request)
  /-- The call `sp.LogEventWithPayload(event, payload)`. -/
  | logEvent (sp : Span) (event : String) (payload : String)
  /-- The call `time.Sleep(d)`, with `d` in nanoseconds. -/
  | sleep (nanos : Int)
  /-- The call `http.DefaultClient.Do(req)`. -/
  | httpDo (req : Request)
  /-- A call of `log.Printf` or `log.Println`, with the text that is logged. -/
  | logPrint (msg : String)
  /-- A call of `log.Fatalf`, with the text that is logged before the process exits. -/
  | logFatal (msg : String)
  /-- A `go` statement: a goroutine is started here. -/
  | go
  deriving DecidableEq, Repr

/-- How a handler invocation ends: it returns, the process exits inside
`log.Fatalf` (`os.Exit(1)`, deferred calls do not run), or it panics (deferred
calls run). -/
inductive Exit where
  | returned
  | fatal
  | panicked
  deriving DecidableEq, Repr

/-- One invocation of a handler: the effects of the handler's own goroutine in
program order, the effects of the goroutine it started (what that goroutine
does when it runs to its end), and how the handler exits. -/
structure Run where
  events : List Event
  spawned : List Event
  exit : Exit
  deriving DecidableEq, Repr

/-- The outcomes of the library calls of one handler invocation that the
handler does not control: the error of `http.NewRequest(method, url, nil)`, the
error of `http.DefaultClient.Do(req)`, and the numbers the random source
yields, indexed by the position of the `sleepMilli` call in the handler's
text. -/
structure Env where
  newRequestErr : String → String → Option String
  doErr : Request → Option String
  rand : Nat → Nat

/-! ## Building runs -/

/-- The handler returns here. -/
def Run.ret : Run := ⟨[], [], Exit.returned⟩

/-- The call `log.Fatalf(msg)`: the message is logged and the process exits. -/
def Run.fatalf (msg : String) : Run := ⟨[Event.logFatal msg], [], Exit.fatal⟩

/-- A nil pointer is dereferenced: the goroutine panics. -/
def Run.nilDeref : Run := ⟨[], [], Exit.panicked⟩

/-- The effects `es`, then the rest of the handler `k`. -/
def Run.emit (es : List Event) (k : Run) : Run :=
  ⟨es ++ k.events, k.spawned, k.exit⟩

/-- The statement `go func() { body }()`, then the rest of the handler `k`. -/
def Run.spawn (body : List Event) (k : Run) : Run :=
  ⟨Event.go :: k.events, body ++ k.spawned, k.exit⟩

/-- The statement `defer d` in front of `body`: the deferred effects run when
the body returns or panics, and do not run when the process exits. -/
def Run.defer (d : List Event) (body : Run) : Run :=
  match body.exit with
  | Exit.fatal => body
  | _ => ⟨body.events ++ d, body.spawned, body.exit⟩

/-! ## URLs and requests -/

/-- The text after the first `://` of a URL, and whether a `://` was found. -/
def afterScheme : List Char → Option (List Char)
  | [] => none
  | ':' :: '/' :: '/' :: rest => some rest
  | _ :: rest => afterScheme rest

/-- The text before the first `://` of a URL. -/
def beforeScheme : List Char → List Char
  | [] => []
  | ':' :: '/' :: '/' :: _ => []
  | c :: rest => c :: beforeScheme rest

/-- The URL of a request given as text (`url.Parse` on a well-formed URL): an
absolute URL `scheme://host/path`, or a path alone. -/
def parseURL (raw : String) : URL :=
  match afterScheme raw.data with
  | some rest =>
    ⟨String.mk (beforeScheme raw.data),
     String.mk (rest.takeWhile (fun c => c != '/')),
     String.mk (rest.dropWhile (fun c => c != '/'))⟩
  | none => ⟨"", "", raw⟩

/-- The request `http.NewRequest(method, url, nil)` returns when it returns no
error: the method, the parsed URL, an empty header. -/
def newRequest (method url : String) : Request := ⟨method, parseURL url, []⟩

/-- The request the server's handler is given for the client request `req`:
same method, the URL reduced to its path (`r.URL.Path`), and as header what the
HTTP transport `wire` makes of the header the client wrote.  The transport is
`net/http` on both sides and is taken as a parameter. -/
def deliver (wire : Header → Header) (req : Request) : Request :=
  ⟨req.method, ⟨"", "", req.url.path⟩, wire req.header⟩

/-- The bytes `net/http` accepts in a header field name (the token characters
of HTTP). -/
def isTokenChar (c : Char) : Bool :=
  c.isAlphanum || ['!', '#', '$', '%', '&', '*', '+', '-', '.', '^', '_', '|', '~',
    Char.ofNat 39, Char.ofNat 96].contains c

/-- The characters of a canonical header key: the first letter and every letter
after a hyphen in upper case, the other letters in lower case. -/
def canonicalChars (upper : Bool) : List Char → List Char
  | [] => []
  | c :: cs => (if upper then c.toUpper else c.toLower) :: canonicalChars (c == '-') cs

/-- The canonical form of a header key (`http.CanonicalMIMEHeaderKey`): a key
with a byte that is not a token character is left as it is. -/
def canonicalKey (k : String) : String :=
  if k.data.all isTokenChar then String.mk (canonicalChars true k.data) else k

/-- The header `h` with the entry `(k, v)` added when `h` has no entry for `k`. -/
def addIfAbsent (h : Header) (k v : String) : Header :=
  match h.lookup k with
  | some _ => h
  | none => h ++ [(k, v)]

/-- What `net/http` makes of the header of a `GET` request sent with
`http.DefaultClient`, between the client's `Do` and the server's handler: the
server stores every key in canonical form, and the client's transport adds
`Accept-Encoding` and `User-Agent` when the request does not set them. -/
def netHTTP (h : Header) : Header :=
  addIfAbsent
    (addIfAbsent (h.map (fun e => (canonicalKey e.1, e.2))) "Accept-Encoding" "gzip")
    "User-Agent" "Go-http-client/1.1"

/-! ## sleepMilli -/

/-- A mathematical integer reduced to a 64-bit signed integer (Go `int` on a
64-bit platform, `int64`, `time.Duration`). -/
def wrap64 (x : Int) : Int := (x + 2 ^ 63) % 2 ^ 64 - 2 ^ 63

/-- The constant `time.Millisecond`, in nanoseconds. -/
def millisecond : Int := 1000000

/-- The duration `sleepMilli(min)` passes to `time.Sleep`, in nanoseconds, when
`rand.Intn(100)` returned `r`:
`time.Millisecond * time.Duration(min + rand.Intn(100))`. -/
def sleepMilli (min : Int) (r : Nat) : Int :=
  wrap64 (millisecond * wrap64 (min + (r : Int)))

/-- The value of `rand.Intn(n)` at the `k`-th draw of the environment. -/
def Env.intn (env : Env) (k n : Nat) : Nat := env.rand k % n

/-! ## The handlers -/

/-- The URL of the asynchronous downstream call of `homeHandler`. -/
def asyncURL : String := "http://localhost:8080/async"

/-- The URL of the synchronous downstream call of `homeHandler`. -/
def serviceURL : String := "http://localhost:8080/service"

/-- The URL of the downstream call of `serviceHandler`. -/
def dbURL : String := "http://localhost:8080/db"

/-- The handler of `/`. -/
def indexHandler : Run :=
  Run.emit [Event.write "<a href=\"/home\"> Click here to start a request </a>"] Run.ret

/-- The handler of `/home`.  `st k` is the state the process-wide tracer is in
when the handler makes its `k`-th call to it; other goroutines use the same
tracer, so the states of successive calls are unrelated. -/
def homeHandler {σ : Type} (T : Tracer σ) (env : Env) (st : Nat → σ) (r : Request) : Run :=
  let sp := T.startSpan (st 0) "GET /home" []
  Run.emit [Event.write "Request started", Event.startSpan "GET /home" [] sp] <|
  Run.defer [Event.finish sp] <|
  match env.newRequestErr "GET" asyncURL with
  | some err => Run.fatalf (r.url.path ++ ": New Request Failed (" ++ err ++ ")")
  | none =>
    let asyncReq := newRequest "GET" asyncURL
    let inj := T.inject (st 1) sp.context Format.textMap asyncReq.header
    Run.emit [Event.inject sp.context Format.textMap asyncReq] <|
    match inj.2 with
    | some err => Run.fatalf (r.url.path ++ ": Couldn't inject headers (" ++ err ++ ")")
    | none =>
      let asyncReq : Request := ⟨asyncReq.method, asyncReq.url, inj.1⟩
      Run.spawn
        ([Event.sleep (sleepMilli 50 (env.intn 0 100)), Event.httpDo asyncReq] ++
          match env.doErr asyncReq with
          | some err => [Event.logPrint (r.url.path ++ ": Async call failed (" ++ err ++ ")")]
          | none => []) <|
      Run.emit [Event.sleep (sleepMilli 10 (env.intn 1 100))] <|
      match env.newRequestErr "GET" serviceURL with
      | some _ => Run.nilDeref
      | none =>
        let syncReq := newRequest "GET" serviceURL
        let inj := T.inject (st 2) sp.context Format.textMap syncReq.header
        Run.emit [Event.inject sp.context Format.textMap syncReq] <|
        match inj.2 with
        | some err => Run.fatalf (r.url.path ++ ": Couldn't inject headers (" ++ err ++ ")")
        | none =>
          let syncReq : Request := ⟨syncReq.method, syncReq.url, inj.1⟩
          Run.emit [Event.httpDo syncReq] <|
          match env.doErr syncReq with
          | some err =>
            Run.emit [Event.logPrint (r.url.path ++ ": Synchronous call failed (" ++ err ++ ")")]
              Run.ret
          | none => Run.emit [Event.write "... done!"] Run.ret

/-- The handler of `/async` and `/service`. -/
def serviceHandler {σ : Type} (T : Tracer σ) (env : Env) (st : Nat → σ) (r : Request) : Run :=
  let opName := r.method ++ " " ++ r.url.path
  let ext := T.extract (st 0) Format.textMap r.header
  let spCtx := ext.1
  let err := ext.2
  let opts := if err = none then [StartSpanOption.childOf spCtx] else []
  let sp := T.startSpan (st 1) opName opts
  Run.emit [Event.startSpan opName opts sp] <|
  Run.defer [Event.finish sp] <|
  Run.emit [Event.sleep (sleepMilli 50 (env.intn 0 100))] <|
  match env.newRequestErr "GET" dbURL with
  | some _ => Run.nilDeref
  | none =>
    let dbReq := newRequest "GET" dbURL
    let inj := T.inject (st 2) sp.context Format.textMap dbReq.header
    Run.emit [Event.inject sp.context Format.textMap dbReq] <|
    match inj.2 with
    | some err => Run.fatalf (r.url.path ++ ": Couldn't inject headers (" ++ err ++ ")")
    | none =>
      let dbReq : Request := ⟨dbReq.method, dbReq.url, inj.1⟩
      Run.emit [Event.httpDo dbReq] <|
      match env.doErr dbReq with
      | some err => Run.emit [Event.logEvent sp "db request error" err] Run.ret
      | none => Run.ret

/-- The handler of `/db`. -/
def dbHandler {σ : Type} (T : Tracer σ) (env : Env) (st : Nat → σ) (r : Request) : Run :=
  let ext := T.extract (st 0) Format.textMap r.header
  let spanCtx := ext.1
  let err := ext.2
  match err with
  | some e =>
    Run.emit
      [Event.logPrint ("%s: Could not join trace (%v) " ++ r.url.path ++ " " ++ e)]
      Run.ret
  | none =>
    let opts := if err = none then [StartSpanOption.childOf spanCtx] else []
    let sp := T.startSpan (st 1) "GET /db" opts
    Run.emit [Event.startSpan "GET /db" opts sp] <|
    Run.defer [Event.finish sp] <|
    Run.emit [Event.sleep (sleepMilli 25 (env.intn 0 100))] Run.ret

/-! ## main: the listening address and the routes -/

/-- The address `main` passes to `http.ListenAndServe`: `fmt.Sprintf(":%d", *port)`. -/
def listenAddr (port : Int) : String := ":" ++ toString port

/-- The handler functions of the program. -/
inductive Handler where
  | index
  | home
  | service
  | db
  deriving DecidableEq, Repr

/-- The patterns `main` registers on its `ServeMux`, in the order of the source. -/
def routes : List (String × Handler) :=
  [("/", Handler.index), ("/home", Handler.home), ("/async", Handler.service),
   ("/service", Handler.service), ("/db", Handler.db)]

/-- The handler the `ServeMux` of `main` selects for a path: a pattern without
a trailing slash matches that path alone, and `/` matches every other path. -/
def mux (path : String) : Handler :=
  match routes.lookup path with
  | some h => h
  | none => Handler.index

/-- The run of the handler function `h`. -/
def handlerRun {σ : Type} (h : Handler) (T : Tracer σ) (env : Env) (st : Nat → σ)
    (r : Request) : Run :=
  match h with
  | Handler.index => indexHandler
  | Handler.home => homeHandler T env st r
  | Handler.service => serviceHandler T env st r
  | Handler.db => dbHandler T env st r

/-- The server built by `main` handling the request `r`: the handler the
`ServeMux` selects for the path of `r` runs. -/
def serve {σ : Type} (T : Tracer σ) (env : Env) (st : Nat → σ) (r : Request) : Run :=
  handlerRun (mux r.url.path) T env st r

/-! ## Observations on a run -/

/-- The `StartSpan` calls among some effects: operation name, options, and the
span that was returned. -/
def spanStarts : List Event → List (String × List StartSpanOption × Span)
  | [] => []
  | Event.startSpan op opts sp :: es => (op, opts, sp) :: spanStarts es
  | _ :: es => spanStarts es

/-- The spans on which `Finish` is called among some effects, one entry per call. -/
def finishes : List Event → List Span
  | [] => []
  | Event.finish sp :: es => sp :: finishes es
  | _ :: es => finishes es

/-- The bytes written to the response among some effects. -/
def response : List Event → String
  | [] => ""
  | Event.write b :: es => b ++ response es
  | _ :: es => response es

/-- The `Inject` calls among some effects: context, format, and the request
whose header is the carrier. -/
def injections : List Event → List (SpanContext × Format × Request)
  | [] => []
  | Event.inject ctx fmt req :: es => (ctx, fmt, req) :: injections es
  | _ :: es => injections es

/-- The requests passed to `http.DefaultClient.Do` among some effects. -/
def requestsSent : List Event → List Request
  | [] => []
  | Event.httpDo req :: es => req :: requestsSent es
  | _ :: es => requestsSent es

/-- The events recorded on spans among some effects: span, event name, payload. -/
def spanLogs : List Event → List (Span × String × String)
  | [] => []
  | Event.logEvent sp ev payload :: es => (sp, ev, payload) :: spanLogs es
  | _ :: es => spanLogs es

/-- The lines written to the process log by `log.Printf` and `log.Println`
among some effects. -/
def processLogs : List Event → List String
  | [] => []
  | Event.logPrint msg :: es => msg :: processLogs es
  | _ :: es => processLogs es

/-! ## A reference tracer -/

/-- The value of a decimal digit character. -/
def digitValue (c : Char) : Option Nat :=
  if c = '0' then some 0 else if c = '1' then some 1 else if c = '2' then some 2
  else if c = '3' then some 3 else if c = '4' then some 4 else if c = '5' then some 5
  else if c = '6' then some 6 else if c = '7' then some 7 else if c = '8' then some 8
  else if c = '9' then some 9 else none

/-- The number read from decimal digits, most significant first, continuing
from the value `acc` of the digits already read. -/
def readDigits (acc : Nat) : List Char → Option Nat
  | [] => some acc
  | c :: cs =>
    match digitValue c with
    | some d => readDigits (acc * 10 + d) cs
    | none => none

/-- The number a decimal numeral denotes; the empty text is no numeral. -/
def readNat (text : String) : Option Nat :=
  match text.data with
  | [] => none
  | cs => readDigits 0 cs

/-- The header `h` with the key `k` set to `v` (`Header.Set`). -/
def headerSet (h : Header) (k v : String) : Header :=
  (k, v) :: h.filter (fun e => e.1 != k)

/-- The header `h` without the key `k` (`Header.Del`). -/
def headerDel (h : Header) (k : String) : Header :=
  h.filter (fun e => e.1 != k)

/-- Modelled from the spec: a tracer as sections 4.1 and 4.2 describe it.  Its
state is the next fresh identifier.  A span started without a parent reference
takes a fresh identifier as TraceID and SpanID and has no ParentSpanID; a span started as
`ChildOf` a context inherits its TraceID, takes a fresh SpanID and has the
parent's SpanID as ParentSpanID.  `Inject` writes the identifiers as decimal
numerals under fixed keys; `Extract` reads them back and reports an error when
the trace or span identifier is absent or malformed. -/
def basicTracer : Tracer Nat where
  startSpan := fun s op opts =>
    match opts with
    | StartSpanOption.childOf (some p) :: _ => ⟨op, ⟨p.traceID, s, some p.spanID⟩⟩
    | _ => ⟨op, ⟨s, s, none⟩⟩
  inject := fun _ ctx fmt h =>
    match fmt with
    | Format.binary => (h, some "opentracing: Unknown or unsupported Inject/Extract format")
    | _ =>
      let h1 := headerSet h "ot-tracer-traceid" (toString ctx.traceID)
      let h2 := headerSet h1 "ot-tracer-spanid" (toString ctx.spanID)
      let h3 :=
        match ctx.parentSpanID with
        | some p => headerSet h2 "ot-tracer-parentid" (toString p)
        | none => headerDel h2 "ot-tracer-parentid"
      (h3, none)
  extract := fun _ fmt h =>
    match fmt with
    | Format.binary => (none, some "opentracing: Unknown or unsupported Inject/Extract format")
    | _ =>
      match (h.lookup "ot-tracer-traceid").bind readNat,
            (h.lookup "ot-tracer-spanid").bind readNat with
      | some t, some i =>
        match h.lookup "ot-tracer-parentid" with
        | none => (some ⟨t, i, none⟩, none)
        | some text =>
          match readNat text with
          | some p => (some ⟨t, i, some p⟩, none)
          | none => (none, some "opentracing: SpanContext data corrupted in Extract carrier")
      | _, _ => (none, some "opentracing: SpanContext not found in Extract carrier")

/-- Modelled from the spec: the tracer `basicTracer` with the keys of its codec
in canonical form, so that they pass through HTTP unchanged; `Extract` looks the
keys up and ignores every other entry of the carrier.  A child span takes as
SpanID the next identifier of the tracer, or the one after its parent's when
that is larger, so that it never shares the SpanID of its parent. -/
def headerTracer : Tracer Nat where
  startSpan := fun s op opts =>
    match opts with
    | StartSpanOption.childOf (some p) :: _ =>
      ⟨op, ⟨p.traceID, max s (p.spanID + 1), some p.spanID⟩⟩
    | _ => ⟨op, ⟨s, s, none⟩⟩
  inject := fun _ ctx fmt h =>
    match fmt with
    | Format.binary => (h, some "opentracing: Unknown or unsupported Inject/Extract format")
    | _ =>
      let h1 := headerSet h "Ot-Tracer-Traceid" (toString ctx.traceID)
      let h2 := headerSet h1 "Ot-Tracer-Spanid" (toString ctx.spanID)
      let h3 :=
        match ctx.parentSpanID with
        | some p => headerSet h2 "Ot-Tracer-Parentid" (toString p)
        | none => headerDel h2 "Ot-Tracer-Parentid"
      (h3, none)
  extract := fun _ fmt h =>
    match fmt with
    | Format.binary => (none, some "opentracing: Unknown or unsupported Inject/Extract format")
    | _ =>
      match (h.lookup "Ot-Tracer-Traceid").bind readNat,
            (h.lookup "Ot-Tracer-Spanid").bind readNat with
      | some t, some i =>
        match h.lookup "Ot-Tracer-Parentid" with
        | none => (some ⟨t, i, none⟩, none)
        | some text =>
          match readNat text with
          | some p => (some ⟨t, i, some p⟩, none)
          | none => (none, some "opentracing: SpanContext data corrupted in Extract carrier")
      | _, _ => (none, some "opentracing: SpanContext not found in Extract carrier")

/-- A tracer with the codec of `headerTracer` that allocates no fresh span
identifiers: a child span takes the SpanID of its parent, and a span started
without a parent reference names itself as its parent. -/
def staleTracer : Tracer Nat where
  startSpan := fun s op opts =>
    match opts with
    | StartSpanOption.childOf (some p) :: _ => ⟨op, ⟨p.traceID, p.spanID, some p.spanID⟩⟩
    | _ => ⟨op, ⟨s, s, some s⟩⟩
  inject := headerTracer.inject
  extract := headerTracer.extract

/-- An environment in which every library call succeeds and every random draw
is the given number. -/
def calmEnv (draw : Nat) : Env := ⟨fun _ _ => none, fun _ => none, fun _ => draw⟩

/-- An environment in which every downstream call fails with the given error. -/
def offlineEnv (err : String) : Env := ⟨fun _ _ => none, fun _ => some err, fun _ => 0⟩

/-- The request a client sends to the path `path` of the server, with the
header `h`. -/
def inbound (path : String) (h : Header) : Request := ⟨"GET", ⟨"", "", path⟩, h⟩

/-- The states of a tracer that is used by this handler invocation alone,
starting from the identifier `s`: one identifier is consumed per call. -/
def alone (s : Nat) : Nat → Nat := fun k => s + k

/-- The tracer `basicTracer` with a codec that rejects every carrier: `Inject`
returns the carrier unchanged and an error. -/
def rejectingTracer : Tracer Nat where
  startSpan := basicTracer.startSpan
  inject := fun _ _ _ h => (h, some "opentracing: Invalid Inject/Extract carrier")
  extract := basicTracer.extract

/-! ## The properties of a run the claims speak of -/

/-- Every span the run starts is finished exactly once by the run. -/
def FinishedOnce (run : Run) : Prop :=
  ∀ e ∈ spanStarts run.events, (finishes run.events).count e.2.2 = 1

/-- Every failed downstream call of the run, by the handler or by the goroutine
it started, is recorded as an event on a span, with the error as payload. -/
def FailuresOnSpan (env : Env) (run : Run) : Prop :=
  ∀ q ∈ requestsSent (run.events ++ run.spawned), ∀ err, env.doErr q = some err →
    ∃ sp ev, (sp, ev, err) ∈ spanLogs (run.events ++ run.spawned)

/-! ## sleepMilli: the requested duration -/

theorem wrap64_eq_sub (x : Int) : wrap64 x = x - 2 ^ 64 * ((x + 2 ^ 63) / 2 ^ 64) := by
  unfold wrap64
  have h := Int.emod_add_ediv (x + 2 ^ 63) (2 ^ 64)
  omega

theorem wrap64_of_range (x : Int) (h0 : -2 ^ 63 ≤ x) (h1 : x < 2 ^ 63) : wrap64 x = x := by
  unfold wrap64
  have h : (x + 2 ^ 63) % 2 ^ 64 = x + 2 ^ 63 := Int.emod_eq_of_lt (by omega) (by omega)
  omega

theorem wrap64_mul_wrap64 (m x : Int) : wrap64 (m * wrap64 x) = wrap64 (m * x) := by
  rw [wrap64_eq_sub x]
  unfold wrap64
  have h : m * (x - 2 ^ 64 * ((x + 2 ^ 63) / 2 ^ 64)) + 2 ^ 63
      = (m * x + 2 ^ 63) + 2 ^ 64 * (-(m * ((x + 2 ^ 63) / 2 ^ 64))) := by ring
  rw [h, Int.add_mul_emod_self_left]

/-- Claim C9.  When `rand.Intn(100)` returns `r`, `sleepMilli(min)` requests
`(min + r) * 1000000` nanoseconds reduced to a 64-bit signed integer; when
`0 ≤ min` and `min + r` milliseconds fit in 64 bits, the requested duration is
exactly `min + r` milliseconds, between `min` and `min + 99` milliseconds. -/
theorem sleepMilli_duration (min : Int) (r : Nat) (hr : r < 100) :
    sleepMilli min r = wrap64 ((min + r) * 1000000) ∧
    (0 ≤ min → (min + r) * 1000000 < 2 ^ 63 →
      sleepMilli min r = (min + r) * 1000000 ∧
      min * 1000000 ≤ sleepMilli min r ∧ sleepMilli min r ≤ (min + 99) * 1000000) := by
  have key : sleepMilli min r = wrap64 ((min + r) * 1000000) := by
    unfold sleepMilli millisecond
    rw [wrap64_mul_wrap64, mul_comm]
  refine ⟨key, fun h0 h1 => ?_⟩
  have hr' : (r : Int) < 100 := by exact_mod_cast hr
  have hr0 : (0 : Int) ≤ r := Int.ofNat_nonneg r
  have e : wrap64 ((min + r) * 1000000) = (min + r) * 1000000 :=
    wrap64_of_range _ (by omega) (by omega)
  rw [key, e]
  refine ⟨rfl, by omega, by omega⟩

/-- Claim C9 at `min = 10` and the draw `5`: 15 milliseconds are requested. -/
theorem sleepMilli_duration_witness :
    (5 : Nat) < 100 ∧ (0 : Int) ≤ 10 ∧ ((10 : Int) + (5 : Nat)) * 1000000 < 2 ^ 63 ∧
    sleepMilli 10 5 = 15000000 ∧
    (10 : Int) * 1000000 ≤ sleepMilli 10 5 ∧ sleepMilli 10 5 ≤ (10 + 99) * 1000000 :=
  ⟨by decide, by decide, by decide,
   ((sleepMilli_duration 10 5 (by decide)).2 (by decide) (by decide)).1,
   ((sleepMilli_duration 10 5 (by decide)).2 (by decide) (by decide)).2.1,
   ((sleepMilli_duration 10 5 (by decide)).2 (by decide) (by decide)).2.2⟩

/-! ## Lemmas on runs and observations -/

@[simp]
theorem Run.ret_events : Run.ret.events = [] := rfl
@[simp]
theorem Run.ret_spawned : Run.ret.spawned = [] := rfl
@[simp]
theorem Run.ret_exit : Run.ret.exit = Exit.returned := rfl
@[simp]
theorem Run.fatalf_events (msg : String) :
    (Run.fatalf msg).events = [Event.logFatal msg] := rfl
@[simp]
theorem Run.fatalf_spawned (msg : String) : (Run.fatalf msg).spawned = [] := rfl
@[simp]
theorem Run.fatalf_exit (msg : String) : (Run.fatalf msg).exit = Exit.fatal := rfl
@[simp]
theorem Run.nilDeref_events : Run.nilDeref.events = [] := rfl
@[simp]
theorem Run.nilDeref_spawned : Run.nilDeref.spawned = [] := rfl
@[simp]
theorem Run.nilDeref_exit : Run.nilDeref.exit = Exit.panicked := rfl
@[simp]
theorem Run.emit_events (es : List Event) (k : Run) :
    (Run.emit es k).events = es ++ k.events := rfl
@[simp]
theorem Run.emit_spawned (es : List Event) (k : Run) :
    (Run.emit es k).spawned = k.spawned := rfl
@[simp]
theorem Run.emit_exit (es : List Event) (k : Run) : (Run.emit es k).exit = k.exit := rfl
@[simp]
theorem Run.spawn_events (body : List Event) (k : Run) :
    (Run.spawn body k).events = Event.go :: k.events := rfl
@[simp]
theorem Run.spawn_spawned (body : List Event) (k : Run) :
    (Run.spawn body k).spawned = body ++ k.spawned := rfl
@[simp]
theorem Run.spawn_exit (body : List Event) (k : Run) :
    (Run.spawn body k).exit = k.exit := rfl

@[simp]
theorem Run.defer_events (d : List Event) (body : Run) :
    (Run.defer d body).events = body.events ++ (if body.exit = Exit.fatal then [] else d) := by
  unfold Run.defer
  cases h : body.exit <;> simp

@[simp]
theorem Run.defer_spawned (d : List Event) (body : Run) :
    (Run.defer d body).spawned = body.spawned := by
  unfold Run.defer
  cases h : body.exit <;> simp

@[simp]
theorem Run.defer_exit (d : List Event) (body : Run) :
    (Run.defer d body).exit = body.exit := by
  unfold Run.defer
  cases h : body.exit <;> simp [h]

@[simp]
theorem spanStarts_append (a b : List Event) :
    spanStarts (a ++ b) = spanStarts a ++ spanStarts b := by
  induction a with
  | nil => rfl
  | cons e es ih => cases e <;> simp [spanStarts, ih]

@[simp]
theorem finishes_append (a b : List Event) :
    finishes (a ++ b) = finishes a ++ finishes b := by
  induction a with
  | nil => rfl
  | cons e es ih => cases e <;> simp [finishes, ih]

@[simp]
theorem injections_append (a b : List Event) :
    injections (a ++ b) = injections a ++ injections b := by
  induction a with
  | nil => rfl
  | cons e es ih => cases e <;> simp [injections, ih]

@[simp]
theorem requestsSent_append (a b : List Event) :
    requestsSent (a ++ b) = requestsSent a ++ requestsSent b := by
  induction a with
  | nil => rfl
  | cons e es ih => cases e <;> simp [requestsSent, ih]

@[simp]
theorem spanLogs_append (a b : List Event) :
    spanLogs (a ++ b) = spanLogs a ++ spanLogs b := by
  induction a with
  | nil => rfl
  | cons e es ih => cases e <;> simp [spanLogs, ih]

@[simp]
theorem processLogs_append (a b : List Event) :
    processLogs (a ++ b) = processLogs a ++ processLogs b := by
  induction a with
  | nil => rfl
  | cons e es ih => cases e <;> simp [processLogs, ih]

/-! ## Span creation in serviceHandler and dbHandler -/

/-- Claim C1.  `/async` and `/service` are routed to `serviceHandler`, and for
every request `serviceHandler` calls `StartSpan` before any other effect, and
only once: with `ChildOf(spCtx)` for the extracted context when `Extract`
returned no error, and without any parent reference when `Extract` returned an
error.  The handler starts no goroutine. -/
theorem serviceHandler_starts_one_span {σ : Type} (T : Tracer σ) (env : Env) (st : Nat → σ)
    (r : Request) :
    mux "/async" = Handler.service ∧ mux "/service" = Handler.service ∧
    (serviceHandler T env st r).spawned = [] ∧
    match (T.extract (st 0) Format.textMap r.header).2 with
    | none =>
      (serviceHandler T env st r).events.head? =
        some (Event.startSpan (r.method ++ " " ++ r.url.path)
          [StartSpanOption.childOf (T.extract (st 0) Format.textMap r.header).1]
          (T.startSpan (st 1) (r.method ++ " " ++ r.url.path)
            [StartSpanOption.childOf (T.extract (st 0) Format.textMap r.header).1])) ∧
      spanStarts (serviceHandler T env st r).events =
        [(r.method ++ " " ++ r.url.path,
          [StartSpanOption.childOf (T.extract (st 0) Format.textMap r.header).1],
          T.startSpan (st 1) (r.method ++ " " ++ r.url.path)
            [StartSpanOption.childOf (T.extract (st 0) Format.textMap r.header).1])]
    | some _ =>
      (serviceHandler T env st r).events.head? =
        some (Event.startSpan (r.method ++ " " ++ r.url.path) []
          (T.startSpan (st 1) (r.method ++ " " ++ r.url.path) [])) ∧
      spanStarts (serviceHandler T env st r).events =
        [(r.method ++ " " ++ r.url.path, [],
          T.startSpan (st 1) (r.method ++ " " ++ r.url.path) [])] := by
  refine ⟨by decide, by decide, ?_, ?_⟩
  · unfold serviceHandler
    simp only []
    (repeat' split) <;> simp_all
  unfold serviceHandler
  cases hx : (T.extract (st 0) Format.textMap r.header).2 <;>
  simp only [hx, if_true, if_false, reduceCtorEq, Run.emit_events, Run.defer_events,
    Run.emit_exit, List.cons_append, List.nil_append, List.head?_cons, spanStarts,
    spanStarts_append, true_and] <;>
  (repeat' split) <;> simp_all [spanStarts]

/-- Claim C7.  In `dbHandler` no `StartSpan` call is made without a parent
reference.  When `Extract` returned an error the handler returns without
starting a span; when it returned no error the handler starts exactly one span,
named `GET /db`, as `ChildOf` the extracted context.  The handler starts no
goroutine. -/
theorem dbHandler_root_branch_unreachable {σ : Type} (T : Tracer σ) (env : Env)
    (st : Nat → σ) (r : Request) :
    (∀ e ∈ spanStarts (dbHandler T env st r).events, e.2.1 ≠ []) ∧
    (dbHandler T env st r).spawned = [] ∧
    match (T.extract (st 0) Format.textMap r.header).2 with
    | some _ =>
      spanStarts (dbHandler T env st r).events = [] ∧
      (dbHandler T env st r).exit = Exit.returned
    | none =>
      spanStarts (dbHandler T env st r).events =
        [("GET /db", [StartSpanOption.childOf (T.extract (st 0) Format.textMap r.header).1],
          T.startSpan (st 1) "GET /db"
            [StartSpanOption.childOf (T.extract (st 0) Format.textMap r.header).1])] := by
  unfold dbHandler
  cases hx : (T.extract (st 0) Format.textMap r.header).2 <;>
  simp [hx, spanStarts]

/-- Claim C2 (the code at the failing input).  A `/db` request without trace
headers: `Extract` returns an error, and `dbHandler` logs one line and returns.
It starts no span and finishes none. -/
theorem dbHandler_extract_failure_starts_no_span :
    (basicTracer.extract 7 Format.textMap []).2 =
      some "opentracing: SpanContext not found in Extract carrier" ∧
    dbHandler basicTracer (calmEnv 0) (alone 7) (inbound "/db" []) =
      ⟨[Event.logPrint ("%s: Could not join trace (%v) /db " ++
          "opentracing: SpanContext not found in Extract carrier")], [], Exit.returned⟩ ∧
    spanStarts (dbHandler basicTracer (calmEnv 0) (alone 7) (inbound "/db" [])).events = [] ∧
    finishes (dbHandler basicTracer (calmEnv 0) (alone 7) (inbound "/db" [])).events = [] := by
  decide

/-! ## Finishing spans -/

/-- Claim C3 (as stated, refuted).  `homeHandler` with a tracer whose `Inject`
returns an error: the handler starts the `GET /home` span, calls `log.Fatalf`,
and the process exits without the deferred `Finish`. -/
theorem homeHandler_failed_inject_not_finished :
    (homeHandler rejectingTracer (calmEnv 0) (alone 1) (inbound "/home" [])).events =
      [Event.write "Request started",
       Event.startSpan "GET /home" [] ⟨"GET /home", ⟨1, 1, none⟩⟩,
       Event.inject ⟨1, 1, none⟩ Format.textMap (newRequest "GET" asyncURL),
       Event.logFatal
         "/home: Couldn't inject headers (opentracing: Invalid Inject/Extract carrier)"] ∧
    (homeHandler rejectingTracer (calmEnv 0) (alone 1) (inbound "/home" [])).exit =
      Exit.fatal ∧
    ¬ FinishedOnce (homeHandler rejectingTracer (calmEnv 0) (alone 1) (inbound "/home" [])) := by
  refine ⟨by decide, by decide, ?_⟩
  unfold FinishedOnce
  decide

/-- Claim C3 (amended).  For each handler: the run starts at most one span, and
the goroutine it starts neither starts nor finishes a span.  On every exit
path other than `log.Fatalf` (the handler returns, early or not, or panics)
every span the handler started is finished exactly once, and nothing else is
finished; the process exits in `log.Fatalf` exactly when the run logs a fatal
message, and then `Finish` is not called.  The `log.Fatalf` paths are these,
and no other: in `homeHandler`, failed construction of the asynchronous
request, a failed first `Inject` and a failed second `Inject`; in
`serviceHandler`, a failed `Inject`.  On each of them the span was started, the
last effect is the `log.Fatalf` call, and `Finish` is never called.  On every
other path of `homeHandler` and `serviceHandler` the handler does not exit in
`log.Fatalf` and its span is finished once; `dbHandler` always returns. -/
theorem handler_finishes_spans {σ : Type} (T : Tracer σ) (env : Env)
    (st : Nat → σ) (r : Request) :
    (∀ h : Handler,
      (spanStarts (handlerRun h T env st r).events).length ≤ 1 ∧
      spanStarts (handlerRun h T env st r).spawned = [] ∧
      finishes (handlerRun h T env st r).spawned = [] ∧
      ((handlerRun h T env st r).exit ≠ Exit.fatal →
        FinishedOnce (handlerRun h T env st r) ∧
        finishes (handlerRun h T env st r).events =
          (spanStarts (handlerRun h T env st r).events).map (fun e => e.2.2)) ∧
      ((handlerRun h T env st r).exit = Exit.fatal ↔
        ∃ msg, Event.logFatal msg ∈ (handlerRun h T env st r).events) ∧
      ((handlerRun h T env st r).exit = Exit.fatal →
        finishes (handlerRun h T env st r).events = [])) ∧
    (∀ err, env.newRequestErr "GET" asyncURL = some err →
      (homeHandler T env st r).events =
        [Event.write "Request started",
         Event.startSpan "GET /home" [] (T.startSpan (st 0) "GET /home" []),
         Event.logFatal (r.url.path ++ ": New Request Failed (" ++ err ++ ")")] ∧
      (homeHandler T env st r).exit = Exit.fatal ∧
      finishes (homeHandler T env st r).events = []) ∧
    (∀ err, env.newRequestErr "GET" asyncURL = none →
      (T.inject (st 1) (T.startSpan (st 0) "GET /home" []).context Format.textMap []).2
        = some err →
      (homeHandler T env st r).events =
        [Event.write "Request started",
         Event.startSpan "GET /home" [] (T.startSpan (st 0) "GET /home" []),
         Event.inject (T.startSpan (st 0) "GET /home" []).context Format.textMap
           (newRequest "GET" asyncURL),
         Event.logFatal (r.url.path ++ ": Couldn't inject headers (" ++ err ++ ")")] ∧
      (homeHandler T env st r).exit = Exit.fatal ∧
      finishes (homeHandler T env st r).events = []) ∧
    (∀ err, env.newRequestErr "GET" asyncURL = none →
      (T.inject (st 1) (T.startSpan (st 0) "GET /home" []).context Format.textMap []).2
        = none →
      env.newRequestErr "GET" serviceURL = none →
      (T.inject (st 2) (T.startSpan (st 0) "GET /home" []).context Format.textMap []).2
        = some err →
      (homeHandler T env st r).events =
        [Event.write "Request started",
         Event.startSpan "GET /home" [] (T.startSpan (st 0) "GET /home" []),
         Event.inject (T.startSpan (st 0) "GET /home" []).context Format.textMap
           (newRequest "GET" asyncURL),
         Event.go,
         Event.sleep (sleepMilli 10 (env.intn 1 100)),
         Event.inject (T.startSpan (st 0) "GET /home" []).context Format.textMap
           (newRequest "GET" serviceURL),
         Event.logFatal (r.url.path ++ ": Couldn't inject headers (" ++ err ++ ")")] ∧
      (homeHandler T env st r).exit = Exit.fatal ∧
      finishes (homeHandler T env st r).events = []) ∧
    (env.newRequestErr "GET" asyncURL = none →
      (T.inject (st 1) (T.startSpan (st 0) "GET /home" []).context Format.textMap []).2
        = none →
      (env.newRequestErr "GET" serviceURL ≠ none ∨
        (T.inject (st 2) (T.startSpan (st 0) "GET /home" []).context Format.textMap []).2
          = none) →
      (homeHandler T env st r).exit ≠ Exit.fatal ∧
      finishes (homeHandler T env st r).events = [T.startSpan (st 0) "GET /home" []]) ∧
    (∀ err, env.newRequestErr "GET" dbURL = none →
      (T.inject (st 2) (T.startSpan (st 1) (r.method ++ " " ++ r.url.path)
          (if (T.extract (st 0) Format.textMap r.header).2 = none
            then [StartSpanOption.childOf (T.extract (st 0) Format.textMap r.header).1]
            else [])).context Format.textMap []).2 = some err →
      (serviceHandler T env st r).events =
        [Event.startSpan (r.method ++ " " ++ r.url.path)
           (if (T.extract (st 0) Format.textMap r.header).2 = none
             then [StartSpanOption.childOf (T.extract (st 0) Format.textMap r.header).1]
             else [])
           (T.startSpan (st 1) (r.method ++ " " ++ r.url.path)
             (if (T.extract (st 0) Format.textMap r.header).2 = none
               then [StartSpanOption.childOf (T.extract (st 0) Format.textMap r.header).1]
               else [])),
         Event.sleep (sleepMilli 50 (env.intn 0 100)),
         Event.inject (T.startSpan (st 1) (r.method ++ " " ++ r.url.path)
             (if (T.extract (st 0) Format.textMap r.header).2 = none
               then [StartSpanOption.childOf (T.extract (st 0) Format.textMap r.header).1]
               else [])).context Format.textMap (newRequest "GET" dbURL),
         Event.logFatal (r.url.path ++ ": Couldn't inject headers (" ++ err ++ ")")] ∧
      (serviceHandler T env st r).exit = Exit.fatal ∧
      finishes (serviceHandler T env st r).events = []) ∧
    ((env.newRequestErr "GET" dbURL ≠ none ∨
      (T.inject (st 2) (T.startSpan (st 1) (r.method ++ " " ++ r.url.path)
          (if (T.extract (st 0) Format.textMap r.header).2 = none
            then [StartSpanOption.childOf (T.extract (st 0) Format.textMap r.header).1]
            else [])).context Format.textMap []).2 = none) →
      (serviceHandler T env st r).exit ≠ Exit.fatal ∧
      finishes (serviceHandler T env st r).events =
        [T.startSpan (st 1) (r.method ++ " " ++ r.url.path)
          (if (T.extract (st 0) Format.textMap r.header).2 = none
            then [StartSpanOption.childOf (T.extract (st 0) Format.textMap r.header).1]
            else [])]) ∧
    (dbHandler T env st r).exit = Exit.returned := by
  have hn : (newRequest "GET" asyncURL).header = [] := rfl
  have hm : (newRequest "GET" serviceURL).header = [] := rfl
  have hd : (newRequest "GET" dbURL).header = [] := rfl
  refine ⟨?_, ?_, ?_, ?_, ?_, ?_, ?_, ?_⟩
  · intro h
    cases h
    · simp [handlerRun, indexHandler, FinishedOnce, spanStarts, finishes]
    · unfold handlerRun homeHandler FinishedOnce
      simp only []
      (repeat' split) <;> simp_all [spanStarts, finishes]
    · unfold handlerRun serviceHandler FinishedOnce
      simp only []
      (repeat' split) <;> simp_all [spanStarts, finishes]
    · unfold handlerRun dbHandler FinishedOnce
      simp only []
      (repeat' split) <;> simp_all [spanStarts, finishes]
  · intro err h1
    unfold homeHandler
    simp [h1, finishes]
  · intro err h1 h2
    unfold homeHandler
    simp [h1, h2, hn, finishes]
  · intro err h1 h2 h3 h4
    unfold homeHandler
    simp [h1, h2, h3, h4, hn, hm, finishes]
  · intro h1 h2 h3
    unfold homeHandler
    simp only [h1, h2, hn, hm]
    (repeat' split) <;> simp_all [finishes]
  · intro err h1 h2
    unfold serviceHandler
    simp [h1, h2, hd, finishes]
  · intro h1
    unfold serviceHandler
    simp only [hd]
    (repeat' split) <;> simp_all [finishes]
  · unfold dbHandler
    simp only []
    (repeat' split) <;> simp_all

/-! ## homeHandler: the injected context and the response -/

/-- Claim C4.  In every run of `homeHandler` the only span is the `GET /home`
span `sp` the run started.  Every `Inject` of the run passes the context of
`sp` in `TextMap` format: first with the header of the asynchronous request as
carrier, then with the header of the synchronous request.  The request the
goroutine sends to `/async` and the request the handler sends to `/service`
each carry the header their own `Inject` call produced.  When request
construction and both `Inject` calls succeed, both injections and both requests
are there. -/
theorem homeHandler_injects_one_context {σ : Type} (T : Tracer σ) (env : Env)
    (st : Nat → σ) (r : Request) :
    spanStarts (homeHandler T env st r).events =
      [("GET /home", [], T.startSpan (st 0) "GET /home" [])] ∧
    (injections (homeHandler T env st r).events = [] ∨
     injections (homeHandler T env st r).events =
      [((T.startSpan (st 0) "GET /home" []).context, Format.textMap,
        newRequest "GET" asyncURL)] ∨
     injections (homeHandler T env st r).events =
      [((T.startSpan (st 0) "GET /home" []).context, Format.textMap,
        newRequest "GET" asyncURL),
       ((T.startSpan (st 0) "GET /home" []).context, Format.textMap,
        newRequest "GET" serviceURL)]) ∧
    injections (homeHandler T env st r).spawned = [] ∧
    (∀ q ∈ requestsSent (homeHandler T env st r).spawned,
      q = ⟨"GET", parseURL asyncURL,
        (T.inject (st 1) (T.startSpan (st 0) "GET /home" []).context Format.textMap []).1⟩) ∧
    (∀ q ∈ requestsSent (homeHandler T env st r).events,
      q = ⟨"GET", parseURL serviceURL,
        (T.inject (st 2) (T.startSpan (st 0) "GET /home" []).context Format.textMap []).1⟩) ∧
    (env.newRequestErr "GET" asyncURL = none → env.newRequestErr "GET" serviceURL = none →
      (T.inject (st 1) (T.startSpan (st 0) "GET /home" []).context Format.textMap []).2 = none →
      (T.inject (st 2) (T.startSpan (st 0) "GET /home" []).context Format.textMap []).2 = none →
      injections (homeHandler T env st r).events =
        [((T.startSpan (st 0) "GET /home" []).context, Format.textMap,
          newRequest "GET" asyncURL),
         ((T.startSpan (st 0) "GET /home" []).context, Format.textMap,
          newRequest "GET" serviceURL)] ∧
      requestsSent (homeHandler T env st r).spawned =
        [⟨"GET", parseURL asyncURL,
          (T.inject (st 1) (T.startSpan (st 0) "GET /home" []).context Format.textMap []).1⟩] ∧
      requestsSent (homeHandler T env st r).events =
        [⟨"GET", parseURL serviceURL,
          (T.inject (st 2) (T.startSpan (st 0) "GET /home" []).context
            Format.textMap []).1⟩]) := by
  unfold homeHandler
  simp only []
  (repeat' split) <;>
    simp_all [spanStarts, injections, requestsSent, newRequest]

/-- Claim C8.  When request construction and both `Inject` calls succeed, the
response of `homeHandler` is `Request started... done!` if and only if the
synchronous call to `/service` returned no error, and it is `Request started`
when that call failed.  The goroutine writes nothing to the response, and the
response is the same in every environment that agrees on request construction
and on the outcome of the synchronous call, whatever the asynchronous call
returns. -/
theorem homeHandler_response {σ : Type} (T : Tracer σ) (env : Env) (st : Nat → σ)
    (r : Request)
    (hAsync : env.newRequestErr "GET" asyncURL = none)
    (hSync : env.newRequestErr "GET" serviceURL = none)
    (hInj1 : (T.inject (st 1) (T.startSpan (st 0) "GET /home" []).context
      Format.textMap []).2 = none)
    (hInj2 : (T.inject (st 2) (T.startSpan (st 0) "GET /home" []).context
      Format.textMap []).2 = none) :
    (response (homeHandler T env st r).events = "Request started... done!" ↔
      env.doErr ⟨"GET", parseURL serviceURL,
        (T.inject (st 2) (T.startSpan (st 0) "GET /home" []).context
          Format.textMap []).1⟩ = none) ∧
    (env.doErr ⟨"GET", parseURL serviceURL,
        (T.inject (st 2) (T.startSpan (st 0) "GET /home" []).context
          Format.textMap []).1⟩ ≠ none →
      response (homeHandler T env st r).events = "Request started") ∧
    response (homeHandler T env st r).spawned = "" ∧
    (∀ env2 : Env, env2.newRequestErr = env.newRequestErr →
      env2.doErr ⟨"GET", parseURL serviceURL,
        (T.inject (st 2) (T.startSpan (st 0) "GET /home" []).context
          Format.textMap []).1⟩ =
      env.doErr ⟨"GET", parseURL serviceURL,
        (T.inject (st 2) (T.startSpan (st 0) "GET /home" []).context
          Format.textMap []).1⟩ →
      response (homeHandler T env2 st r).events =
        response (homeHandler T env st r).events) := by
  have key : ∀ e : Env, e.newRequestErr "GET" asyncURL = none →
      e.newRequestErr "GET" serviceURL = none →
      response (homeHandler T e st r).events =
        (match e.doErr ⟨"GET", parseURL serviceURL,
            (T.inject (st 2) (T.startSpan (st 0) "GET /home" []).context
              Format.textMap []).1⟩ with
         | some _ => "Request started"
         | none => "Request started... done!") ∧
      response (homeHandler T e st r).spawned = "" := by
    intro e h1 h2
    have hn : (newRequest "GET" asyncURL).header = [] := rfl
    have hm : (newRequest "GET" serviceURL).header = [] := rfl
    unfold homeHandler
    simp only [h1, h2, hn, hm, hInj1, hInj2]
    constructor
    · cases hd : e.doErr ⟨(newRequest "GET" serviceURL).method,
          (newRequest "GET" serviceURL).url,
          (T.inject (st 2) (T.startSpan (st 0) "GET /home" []).context
            Format.textMap []).1⟩
      · have hd2 : e.doErr ⟨"GET", parseURL serviceURL,
            (T.inject (st 2) (T.startSpan (st 0) "GET /home" []).context
              Format.textMap []).1⟩ = none := hd
        simp only [hd2, Run.emit_events, Run.defer_events, Run.spawn_events, Run.emit_exit,
          Run.spawn_exit, Run.ret_events, Run.ret_exit, List.cons_append, List.nil_append,
          List.append_nil, response, reduceCtorEq, if_false]
        rfl
      · have hd2 : e.doErr ⟨"GET", parseURL serviceURL,
            (T.inject (st 2) (T.startSpan (st 0) "GET /home" []).context
              Format.textMap []).1⟩ = some _ := hd
        simp only [hd2, Run.emit_events, Run.defer_events, Run.spawn_events, Run.emit_exit,
          Run.spawn_exit, Run.ret_events, Run.ret_exit, List.cons_append, List.nil_append,
          List.append_nil, response, reduceCtorEq, if_false]
        rfl
    · simp only [Run.emit_spawned, Run.defer_spawned, Run.spawn_spawned]
      (repeat' split) <;> simp [response]
  obtain ⟨k1, k2⟩ := key env hAsync hSync
  refine ⟨?_, ?_, k2, ?_⟩
  · rw [k1]
    cases hd : env.doErr ⟨"GET", parseURL serviceURL,
        (T.inject (st 2) (T.startSpan (st 0) "GET /home" []).context
          Format.textMap []).1⟩
    · simp
    · simp only [reduceCtorEq, iff_false]
      decide
  · intro hne
    rw [k1]
    cases hd : env.doErr ⟨"GET", parseURL serviceURL,
        (T.inject (st 2) (T.startSpan (st 0) "GET /home" []).context
          Format.textMap []).1⟩
    · exact absurd hd hne
    · rfl
  · intro env2 hnr hdo
    rw [(key env2 (by rw [hnr]; exact hAsync) (by rw [hnr]; exact hSync)).1, k1, hdo]

/-- Claim C8 at the reference tracer: the response when the synchronous call
fails and when every call succeeds. -/
theorem homeHandler_response_witness :
    response (homeHandler basicTracer (offlineEnv "connection refused") (alone 1)
      (inbound "/home" [])).events = "Request started" ∧
    response (homeHandler basicTracer (calmEnv 0) (alone 1)
      (inbound "/home" [])).events = "Request started... done!" :=
  ⟨(homeHandler_response basicTracer (offlineEnv "connection refused") (alone 1)
      (inbound "/home" []) rfl rfl (by decide) (by decide)).2.1 (by decide),
   (homeHandler_response basicTracer (calmEnv 0) (alone 1)
      (inbound "/home" []) rfl rfl (by decide) (by decide)).1.2 (by decide)⟩

/-! ## Failed downstream calls -/

/-- Claim C5 (as stated, refuted).  `homeHandler` with both downstream calls
failing: the goroutine and the handler send their requests, both calls return
an error, and no event is recorded on any span; the two failures go to the
process log. -/
theorem homeHandler_failure_not_on_span :
    requestsSent (homeHandler basicTracer (offlineEnv "connection refused") (alone 1)
      (inbound "/home" [])).events =
      [⟨"GET", parseURL serviceURL, [("ot-tracer-spanid", "1"), ("ot-tracer-traceid", "1")]⟩] ∧
    spanLogs (homeHandler basicTracer (offlineEnv "connection refused") (alone 1)
      (inbound "/home" [])).events = [] ∧
    spanLogs (homeHandler basicTracer (offlineEnv "connection refused") (alone 1)
      (inbound "/home" [])).spawned = [] ∧
    processLogs (homeHandler basicTracer (offlineEnv "connection refused") (alone 1)
      (inbound "/home" [])).events = ["/home: Synchronous call failed (connection refused)"] ∧
    processLogs (homeHandler basicTracer (offlineEnv "connection refused") (alone 1)
      (inbound "/home" [])).spawned = ["/home: Async call failed (connection refused)"] ∧
    ¬ FailuresOnSpan (offlineEnv "connection refused")
      (homeHandler basicTracer (offlineEnv "connection refused") (alone 1)
        (inbound "/home" [])) := by
  refine ⟨by decide, by decide, by decide, by decide, by decide, ?_⟩
  intro h
  obtain ⟨sp, ev, hmem⟩ :=
    h ⟨"GET", parseURL serviceURL, [("ot-tracer-spanid", "1"), ("ot-tracer-traceid", "1")]⟩
      (by decide) "connection refused" rfl
  have e : spanLogs
      ((homeHandler basicTracer (offlineEnv "connection refused") (alone 1)
        (inbound "/home" [])).events ++
       (homeHandler basicTracer (offlineEnv "connection refused") (alone 1)
        (inbound "/home" [])).spawned) = [] := by decide
  rw [e] at hmem
  exact absurd hmem (List.not_mem_nil _)

/-- Claim C5 (amended).  `serviceHandler`: when the call to `/db` returns an
error, the handler records the event `db request error` with that error on its
span, returns, and the span is finished.  `homeHandler`: no event is ever
recorded on a span; when the synchronous call returns an error the handler
writes one line to the process log, returns with the response
`Request started`, and the span is finished; when the asynchronous call returns
an error the goroutine writes one line to the process log, and the span is
finished whenever the handler does not exit in `log.Fatalf`. -/
theorem downstream_failure_is_logged {σ : Type} (T : Tracer σ) (env : Env)
    (st : Nat → σ) (r : Request) :
    (∀ q ∈ requestsSent (serviceHandler T env st r).events, ∀ err, env.doErr q = some err →
      ∃ op opts sp, spanStarts (serviceHandler T env st r).events = [(op, opts, sp)] ∧
        spanLogs (serviceHandler T env st r).events = [(sp, "db request error", err)] ∧
        (serviceHandler T env st r).exit = Exit.returned ∧
        finishes (serviceHandler T env st r).events = [sp]) ∧
    spanLogs (homeHandler T env st r).events = [] ∧
    spanLogs (homeHandler T env st r).spawned = [] ∧
    (∀ q ∈ requestsSent (homeHandler T env st r).events, ∀ err, env.doErr q = some err →
      processLogs (homeHandler T env st r).events =
        [r.url.path ++ ": Synchronous call failed (" ++ err ++ ")"] ∧
      (homeHandler T env st r).exit = Exit.returned ∧
      response (homeHandler T env st r).events = "Request started" ∧
      finishes (homeHandler T env st r).events = [T.startSpan (st 0) "GET /home" []]) ∧
    (∀ q ∈ requestsSent (homeHandler T env st r).spawned, ∀ err, env.doErr q = some err →
      processLogs (homeHandler T env st r).spawned =
        [r.url.path ++ ": Async call failed (" ++ err ++ ")"] ∧
      ((homeHandler T env st r).exit ≠ Exit.fatal →
        finishes (homeHandler T env st r).events = [T.startSpan (st 0) "GET /home" []])) := by
  refine ⟨?_, ?_, ?_, ?_, ?_⟩
  · unfold serviceHandler
    simp only []
    (repeat' split) <;>
      simp_all [spanStarts, spanLogs, requestsSent, finishes]
  · unfold homeHandler
    simp only []
    (repeat' split) <;> simp_all [spanLogs]
  · unfold homeHandler
    simp only []
    (repeat' split) <;> simp_all [spanLogs]
  · unfold homeHandler
    simp only []
    (repeat' split) <;>
      simp_all [processLogs, requestsSent, finishes, response]
  · unfold homeHandler
    simp only []
    (repeat' split) <;>
      simp_all [processLogs, requestsSent, finishes]

/-! ## Decimal numerals -/

theorem digitValue_digitChar (d : Nat) (h : d < 10) :
    digitValue (Nat.digitChar d) = some d := by
  interval_cases d <;> decide

theorem readDigits_toDigitsCore (fuel : Nat) :
    ∀ (n : Nat) (ds : List Char), n < fuel →
      readDigits 0 (Nat.toDigitsCore 10 fuel n ds) = readDigits n ds := by
  induction fuel with
  | zero => intro n ds h; omega
  | succ f ih =>
    intro n ds h
    unfold Nat.toDigitsCore
    simp only []
    by_cases hz : n / 10 = 0
    · have hn : n < 10 := by omega
      have hm : n % 10 = n := Nat.mod_eq_of_lt hn
      simp only [hz, if_true, readDigits, hm, digitValue_digitChar n hn, Nat.zero_mul,
        Nat.zero_add]
    · have hlt : n / 10 < f := by omega
      simp only [hz, if_false]
      rw [ih (n / 10) _ hlt]
      have hd : n % 10 < 10 := Nat.mod_lt _ (by decide)
      simp only [readDigits, digitValue_digitChar _ hd]
      have e : n / 10 * 10 + n % 10 = n := by omega
      rw [e]

theorem toDigitsCore_ne_nil (fuel : Nat) :
    ∀ (n : Nat) (ds : List Char), ds ≠ [] → Nat.toDigitsCore 10 fuel n ds ≠ [] := by
  induction fuel with
  | zero => intro n ds h; simpa [Nat.toDigitsCore] using h
  | succ f ih =>
    intro n ds h
    unfold Nat.toDigitsCore
    simp only []
    split
    · simp
    · exact ih _ _ (by simp)

theorem toDigits_ne_nil (n : Nat) : Nat.toDigits 10 n ≠ [] := by
  unfold Nat.toDigits Nat.toDigitsCore
  simp only []
  split
  · simp
  · exact toDigitsCore_ne_nil _ _ _ (by simp)

theorem readNat_toString (n : Nat) : readNat (toString n) = some n := by
  have hd : (toString n).data = Nat.toDigits 10 n := rfl
  unfold readNat
  rw [hd]
  have hne := toDigits_ne_nil n
  have hr : readDigits 0 (Nat.toDigits 10 n) = some n := by
    unfold Nat.toDigits
    rw [readDigits_toDigitsCore (n + 1) n [] (by omega)]
    rfl
  cases hc : Nat.toDigits 10 n with
  | nil => exact absurd hc hne
  | cons c cs => simp only []; rw [← hc]; exact hr

/-! ## The reference tracer satisfies the tracer laws -/

theorem lookup_filter_ne (k k2 : String) (hk : k ≠ k2) (h : Header) :
    List.lookup k (h.filter (fun e => e.1 != k2)) = List.lookup k h := by
  induction h with
  | nil => rfl
  | cons e es ih =>
    obtain ⟨a, b⟩ := e
    by_cases ha : a = k2
    · subst ha
      have hne : (k == a) = false := by simpa using hk
      simp [List.filter, List.lookup, hne, ih]
    · have hne : (a != k2) = true := by simpa using ha
      simp only [List.filter, hne, List.lookup]
      cases hka : k == a <;> simp [ih]

theorem lookup_filter_self (k : String) (h : Header) :
    List.lookup k (h.filter (fun e => e.1 != k)) = none := by
  induction h with
  | nil => rfl
  | cons e es ih =>
    obtain ⟨a, b⟩ := e
    by_cases ha : a = k
    · subst ha
      simp [List.filter, ih]
    · have hne : (a != k) = true := by simpa using ha
      have hka : (k == a) = false := by simpa using fun h => ha h.symm
      simp [List.filter, hne, List.lookup, hka, ih]

theorem lookup_headerSet_self (h : Header) (k v : String) :
    List.lookup k (headerSet h k v) = some v := by
  simp [headerSet, List.lookup]

theorem lookup_headerSet_ne (h : Header) (k k2 v : String) (hk : k ≠ k2) :
    List.lookup k (headerSet h k2 v) = List.lookup k h := by
  have hne : (k == k2) = false := by simpa using hk
  simp only [headerSet, List.lookup, hne]
  exact lookup_filter_ne k k2 hk h

theorem lookup_headerDel_self (h : Header) (k : String) :
    List.lookup k (headerDel h k) = none :=
  lookup_filter_self k h

theorem lookup_headerDel_ne (h : Header) (k k2 : String) (hk : k ≠ k2) :
    List.lookup k (headerDel h k2) = List.lookup k h :=
  lookup_filter_ne k k2 hk h

theorem basicTracer_roundtrip (s s2 : Nat) (ctx : SpanContext) (fmt : Format) (h : Header)
    (hok : (basicTracer.inject s ctx fmt h).2 = none) :
    basicTracer.extract s2 fmt (basicTracer.inject s ctx fmt h).1 = (some ctx, none) := by
  obtain ⟨t, i, p⟩ := ctx
  have n1 : "ot-tracer-traceid" ≠ "ot-tracer-spanid" := by decide
  have n2 : "ot-tracer-traceid" ≠ "ot-tracer-parentid" := by decide
  have n3 : "ot-tracer-spanid" ≠ "ot-tracer-parentid" := by decide
  cases fmt
  · simp [basicTracer] at hok
  all_goals
    cases p <;>
    simp [basicTracer, lookup_headerSet_self, lookup_headerSet_ne, lookup_headerDel_self,
      lookup_headerDel_ne, n1, n2, n3, readNat_toString]

theorem basicTracer_childOf (s : Nat) (op : String) (p : SpanContext) :
    (basicTracer.startSpan s op [StartSpanOption.childOf (some p)]).context.traceID
      = p.traceID ∧
    (basicTracer.startSpan s op [StartSpanOption.childOf (some p)]).context.parentSpanID
      = some p.spanID :=
  ⟨rfl, rfl⟩

/-! ## The chain home, service, db -/

theorem homeHandler_request_shape {σ : Type} (T : Tracer σ) (env : Env) (st : Nat → σ)
    (r : Request) (q : Request)
    (hq : q ∈ requestsSent ((homeHandler T env st r).events ++ (homeHandler T env st r).spawned)) :
    ((T.inject (st 1) (T.startSpan (st 0) "GET /home" []).context Format.textMap []).2 = none ∧
      q = ⟨"GET", parseURL asyncURL,
        (T.inject (st 1) (T.startSpan (st 0) "GET /home" []).context Format.textMap []).1⟩) ∨
    ((T.inject (st 2) (T.startSpan (st 0) "GET /home" []).context Format.textMap []).2 = none ∧
      q = ⟨"GET", parseURL serviceURL,
        (T.inject (st 2) (T.startSpan (st 0) "GET /home" []).context Format.textMap []).1⟩) := by
  have hn : (newRequest "GET" asyncURL).header = [] := rfl
  have hm : (newRequest "GET" serviceURL).header = [] := rfl
  revert hq
  unfold homeHandler
  simp only [hn, hm]
  (repeat' split) <;> simp_all [requestsSent, newRequest]
  all_goals
    intro hq
    rcases hq with hq | hq
    · exact Or.inr hq
    · exact Or.inl hq

theorem serviceHandler_spanStarts {σ : Type} (T : Tracer σ) (env : Env) (st : Nat → σ)
    (r : Request) :
    spanStarts (serviceHandler T env st r).events =
      [(r.method ++ " " ++ r.url.path,
        (if (T.extract (st 0) Format.textMap r.header).2 = none
          then [StartSpanOption.childOf (T.extract (st 0) Format.textMap r.header).1] else []),
        T.startSpan (st 1) (r.method ++ " " ++ r.url.path)
          (if (T.extract (st 0) Format.textMap r.header).2 = none
            then [StartSpanOption.childOf (T.extract (st 0) Format.textMap r.header).1]
            else []))] := by
  unfold serviceHandler
  simp only []
  (repeat' split) <;> simp_all [spanStarts]

theorem serviceHandler_spawned {σ : Type} (T : Tracer σ) (env : Env) (st : Nat → σ)
    (r : Request) : (serviceHandler T env st r).spawned = [] := by
  unfold serviceHandler
  simp only []
  (repeat' split) <;> simp_all

theorem serviceHandler_request_shape {σ : Type} (T : Tracer σ) (env : Env) (st : Nat → σ)
    (r : Request) (c : SpanContext)
    (hx : T.extract (st 0) Format.textMap r.header = (some c, none))
    (q : Request) (hq : q ∈ requestsSent (serviceHandler T env st r).events) :
    (T.inject (st 2) (T.startSpan (st 1) (r.method ++ " " ++ r.url.path)
        [StartSpanOption.childOf (some c)]).context Format.textMap []).2 = none ∧
    q = ⟨"GET", parseURL dbURL,
      (T.inject (st 2) (T.startSpan (st 1) (r.method ++ " " ++ r.url.path)
        [StartSpanOption.childOf (some c)]).context Format.textMap []).1⟩ := by
  have hn : (newRequest "GET" dbURL).header = [] := rfl
  revert hq
  unfold serviceHandler
  simp only [hn, hx]
  (repeat' split) <;> simp_all [requestsSent, newRequest]

theorem homeHandler_spanStarts {σ : Type} (T : Tracer σ) (env : Env) (st : Nat → σ)
    (r : Request) :
    spanStarts (homeHandler T env st r).events =
      [("GET /home", [], T.startSpan (st 0) "GET /home" [])] := by
  unfold homeHandler
  simp only []
  (repeat' split) <;> simp_all [spanStarts]

theorem dbHandler_spanStarts {σ : Type} (T : Tracer σ) (env : Env) (st : Nat → σ)
    (r : Request) (c : SpanContext)
    (hx : T.extract (st 0) Format.textMap r.header = (some c, none)) :
    spanStarts (dbHandler T env st r).events =
      [("GET /db", [StartSpanOption.childOf (some c)],
        T.startSpan (st 1) "GET /db" [StartSpanOption.childOf (some c)])] := by
  unfold dbHandler
  simp [hx, spanStarts]

theorem headerTracer_roundtrip (s s2 : Nat) (ctx : SpanContext) (fmt : Format) (h : Header)
    (hok : (headerTracer.inject s ctx fmt h).2 = none) :
    headerTracer.extract s2 fmt (headerTracer.inject s ctx fmt h).1 = (some ctx, none) := by
  obtain ⟨t, i, p⟩ := ctx
  have n1 : "Ot-Tracer-Traceid" ≠ "Ot-Tracer-Spanid" := by decide
  have n2 : "Ot-Tracer-Traceid" ≠ "Ot-Tracer-Parentid" := by decide
  have n3 : "Ot-Tracer-Spanid" ≠ "Ot-Tracer-Parentid" := by decide
  cases fmt
  · simp [headerTracer] at hok
  all_goals
    cases p <;>
    simp [headerTracer, lookup_headerSet_self, lookup_headerSet_ne, lookup_headerDel_self,
      lookup_headerDel_ne, n1, n2, n3, readNat_toString]

theorem headerTracer_inject_fresh (s : Nat) (ctx : SpanContext) :
    (headerTracer.inject s ctx Format.textMap []).1 =
      match ctx.parentSpanID with
      | some p => [("Ot-Tracer-Parentid", toString p), ("Ot-Tracer-Spanid", toString ctx.spanID),
          ("Ot-Tracer-Traceid", toString ctx.traceID)]
      | none => [("Ot-Tracer-Spanid", toString ctx.spanID),
          ("Ot-Tracer-Traceid", toString ctx.traceID)] := by
  obtain ⟨t, i, p⟩ := ctx
  cases p <;> simp [headerTracer, headerSet, headerDel]

theorem headerTracer_netHTTP_roundtrip (s s2 : Nat) (ctx : SpanContext)
    (_hok : (headerTracer.inject s ctx Format.textMap []).2 = none) :
    headerTracer.extract s2 Format.textMap
      (netHTTP (headerTracer.inject s ctx Format.textMap []).1) = (some ctx, none) := by
  have k1 : canonicalKey "Ot-Tracer-Traceid" = "Ot-Tracer-Traceid" := by decide
  have k2 : canonicalKey "Ot-Tracer-Spanid" = "Ot-Tracer-Spanid" := by decide
  have k3 : canonicalKey "Ot-Tracer-Parentid" = "Ot-Tracer-Parentid" := by decide
  rw [headerTracer_inject_fresh]
  obtain ⟨t, i, p⟩ := ctx
  cases p <;>
    simp [netHTTP, addIfAbsent, k1, k2, k3, List.lookup, headerTracer, readNat_toString]

theorem headerTracer_childOf (s : Nat) (op : String) (p : SpanContext) :
    (headerTracer.startSpan s op [StartSpanOption.childOf (some p)]).context.traceID
      = p.traceID ∧
    (headerTracer.startSpan s op [StartSpanOption.childOf (some p)]).context.parentSpanID
      = some p.spanID ∧
    (headerTracer.startSpan s op [StartSpanOption.childOf (some p)]).context.spanID
      ≠ p.spanID := by
  refine ⟨rfl, rfl, ?_⟩
  show max s (p.spanID + 1) ≠ p.spanID
  omega

theorem headerTracer_root (s : Nat) (op : String) :
    (headerTracer.startSpan s op []).context.parentSpanID = none := rfl

theorem staleTracer_childOf (s : Nat) (op : String) (p : SpanContext) :
    (staleTracer.startSpan s op [StartSpanOption.childOf (some p)]).context.traceID
      = p.traceID ∧
    (staleTracer.startSpan s op [StartSpanOption.childOf (some p)]).context.parentSpanID
      = some p.spanID :=
  ⟨rfl, rfl⟩

/-- Claim C6 (as stated, refuted).  The two assumptions of the claim do not
give the chain.  `basicTracer` meets both, and the header its `Inject` writes
reaches `serviceHandler` with its keys in canonical form, where `Extract` does
not find them: the `GET /service` span is a root span of another trace.
`staleTracer` meets both as well, and its carrier passes through HTTP
unchanged: the `GET /home` span has a ParentSpanID, the three spans have the
same SpanID, and the ParentSpanID of the `GET /db` span is the SpanID of the
`GET /home` span. -/
theorem trace_chain_needs_more :
    ((∀ (s s2 : Nat) (ctx : SpanContext) (fmt : Format) (h : Header),
        (basicTracer.inject s ctx fmt h).2 = none →
        basicTracer.extract s2 fmt (basicTracer.inject s ctx fmt h).1 = (some ctx, none)) ∧
      (∀ (s : Nat) (op : String) (p : SpanContext),
        (basicTracer.startSpan s op [StartSpanOption.childOf (some p)]).context.traceID
          = p.traceID ∧
        (basicTracer.startSpan s op [StartSpanOption.childOf (some p)]).context.parentSpanID
          = some p.spanID) ∧
      spanStarts (serve basicTracer (calmEnv 0) (alone 1) (inbound "/home" [])).events =
        [("GET /home", [], ⟨"GET /home", ⟨1, 1, none⟩⟩)] ∧
      requestsSent (serve basicTracer (calmEnv 0) (alone 1) (inbound "/home" [])).events =
        [⟨"GET", parseURL serviceURL,
          [("ot-tracer-spanid", "1"), ("ot-tracer-traceid", "1")]⟩] ∧
      (deliver netHTTP ⟨"GET", parseURL serviceURL,
          [("ot-tracer-spanid", "1"), ("ot-tracer-traceid", "1")]⟩).header =
        [("Ot-Tracer-Spanid", "1"), ("Ot-Tracer-Traceid", "1"), ("Accept-Encoding", "gzip"),
         ("User-Agent", "Go-http-client/1.1")] ∧
      spanStarts (serve basicTracer (calmEnv 0) (alone 10)
          (deliver netHTTP ⟨"GET", parseURL serviceURL,
            [("ot-tracer-spanid", "1"), ("ot-tracer-traceid", "1")]⟩)).events =
        [("GET /service", [], ⟨"GET /service", ⟨11, 11, none⟩⟩)]) ∧
    ((∀ (s s2 : Nat) (ctx : SpanContext) (fmt : Format) (h : Header),
        (staleTracer.inject s ctx fmt h).2 = none →
        staleTracer.extract s2 fmt (staleTracer.inject s ctx fmt h).1 = (some ctx, none)) ∧
      (∀ (s : Nat) (op : String) (p : SpanContext),
        (staleTracer.startSpan s op [StartSpanOption.childOf (some p)]).context.traceID
          = p.traceID ∧
        (staleTracer.startSpan s op [StartSpanOption.childOf (some p)]).context.parentSpanID
          = some p.spanID) ∧
      spanStarts (serve staleTracer (calmEnv 0) (alone 1) (inbound "/home" [])).events =
        [("GET /home", [], ⟨"GET /home", ⟨1, 1, some 1⟩⟩)] ∧
      requestsSent (serve staleTracer (calmEnv 0) (alone 1) (inbound "/home" [])).events =
        [⟨"GET", parseURL serviceURL,
          [("Ot-Tracer-Parentid", "1"), ("Ot-Tracer-Spanid", "1"),
           ("Ot-Tracer-Traceid", "1")]⟩] ∧
      spanStarts (serve staleTracer (calmEnv 0) (alone 10)
          (deliver netHTTP ⟨"GET", parseURL serviceURL,
            [("Ot-Tracer-Parentid", "1"), ("Ot-Tracer-Spanid", "1"),
             ("Ot-Tracer-Traceid", "1")]⟩)).events =
        [("GET /service", [StartSpanOption.childOf (some ⟨1, 1, some 1⟩)],
          ⟨"GET /service", ⟨1, 1, some 1⟩⟩)] ∧
      requestsSent (serve staleTracer (calmEnv 0) (alone 10)
          (deliver netHTTP ⟨"GET", parseURL serviceURL,
            [("Ot-Tracer-Parentid", "1"), ("Ot-Tracer-Spanid", "1"),
             ("Ot-Tracer-Traceid", "1")]⟩)).events =
        [⟨"GET", parseURL dbURL,
          [("Ot-Tracer-Parentid", "1"), ("Ot-Tracer-Spanid", "1"),
           ("Ot-Tracer-Traceid", "1")]⟩] ∧
      spanStarts (serve staleTracer (calmEnv 0) (alone 20)
          (deliver netHTTP ⟨"GET", parseURL dbURL,
            [("Ot-Tracer-Parentid", "1"), ("Ot-Tracer-Spanid", "1"),
             ("Ot-Tracer-Traceid", "1")]⟩)).events =
        [("GET /db", [StartSpanOption.childOf (some ⟨1, 1, some 1⟩)],
          ⟨"GET /db", ⟨1, 1, some 1⟩⟩)]) :=
  ⟨⟨basicTracer_roundtrip, basicTracer_childOf, by decide, by decide, by decide, by decide⟩,
   ⟨headerTracer_roundtrip, staleTracer_childOf, by decide, by decide, by decide, by decide,
    by decide⟩⟩

/-- Claim C6 (amended).  Let `wire` be what the HTTP transport makes of a
request header, and let the tracer satisfy: `Extract` of the header the server
is given for a fresh header written by a successful `Inject` returns the
injected context; a span started as `ChildOf(p)` has the TraceID of `p`, the
SpanID of `p` as ParentSpanID and a SpanID other than that of `p`; a span
started without a parent reference has no ParentSpanID.  A `/home` request,
whatever its header, starts one span `A`, without a parent reference and
without ParentSpanID.  For each request `q` the `/home` run sends (the
asynchronous and the synchronous one), the server handling `q` as delivered
runs `serviceHandler`, which starts one span `B` as `ChildOf` the context of
`A`, with the TraceID of `A` and the SpanID of `A` as ParentSpanID; and for the
request `q2` that run sends, the server runs `dbHandler`, which starts one span
`C` named `GET /db` as `ChildOf` the context of `B`, with the TraceID of `A` and
as ParentSpanID the SpanID of `B`, which is not the SpanID of `A`.  The states
of the tracer at the calls of the three handlers are arbitrary. -/
theorem trace_chain {σ : Type} (T : Tracer σ) (wire : Header → Header)
    (hRound : ∀ (s s2 : σ) (ctx : SpanContext),
      (T.inject s ctx Format.textMap []).2 = none →
      T.extract s2 Format.textMap (wire (T.inject s ctx Format.textMap []).1)
        = (some ctx, none))
    (hChild : ∀ (s : σ) (op : String) (p : SpanContext),
      (T.startSpan s op [StartSpanOption.childOf (some p)]).context.traceID = p.traceID ∧
      (T.startSpan s op [StartSpanOption.childOf (some p)]).context.parentSpanID
        = some p.spanID ∧
      (T.startSpan s op [StartSpanOption.childOf (some p)]).context.spanID ≠ p.spanID)
    (hRoot : ∀ (s : σ) (op : String), (T.startSpan s op []).context.parentSpanID = none)
    (envA envB envC : Env) (stA stB stC : Nat → σ) (r : Request)
    (hHome : r.url.path = "/home") :
    ∃ A : Span,
      spanStarts (serve T envA stA r).events = [("GET /home", [], A)] ∧
      A.context.parentSpanID = none ∧
      ∀ q ∈ requestsSent ((serve T envA stA r).events ++ (serve T envA stA r).spawned),
        ∃ (opB : String) (B : Span),
          mux (deliver wire q).url.path = Handler.service ∧
          (opB = "GET /async" ∨ opB = "GET /service") ∧
          spanStarts (serve T envB stB (deliver wire q)).events =
            [(opB, [StartSpanOption.childOf (some A.context)], B)] ∧
          B.context.traceID = A.context.traceID ∧
          B.context.parentSpanID = some A.context.spanID ∧
          B.context.spanID ≠ A.context.spanID ∧
          ∀ q2 ∈ requestsSent ((serve T envB stB (deliver wire q)).events ++
              (serve T envB stB (deliver wire q)).spawned),
            ∃ C : Span,
              mux (deliver wire q2).url.path = Handler.db ∧
              spanStarts (serve T envC stC (deliver wire q2)).events =
                [("GET /db", [StartSpanOption.childOf (some B.context)], C)] ∧
              C.context.traceID = A.context.traceID ∧
              C.context.parentSpanID = some B.context.spanID ∧
              C.context.parentSpanID ≠ some A.context.spanID ∧
              C.context.spanID ≠ B.context.spanID := by
  have hmux : mux r.url.path = Handler.home := by rw [hHome]; decide
  have hserveA : serve T envA stA r = homeHandler T envA stA r := by
    unfold serve; rw [hmux]; rfl
  rw [hserveA]
  refine ⟨T.startSpan (stA 0) "GET /home" [], homeHandler_spanStarts T envA stA r,
    hRoot _ _, ?_⟩
  -- the second and third hop, for a request carrying the injected context of `A`
  have hop : ∀ (k : Nat) (path : String), mux path = Handler.service →
      (T.inject (stA k) (T.startSpan (stA 0) "GET /home" []).context
        Format.textMap []).2 = none →
      ∃ B : Span,
        spanStarts (serve T envB stB ⟨"GET", ⟨"", "", path⟩,
            wire (T.inject (stA k) (T.startSpan (stA 0) "GET /home" []).context
              Format.textMap []).1⟩).events =
          [("GET " ++ path,
            [StartSpanOption.childOf (some (T.startSpan (stA 0) "GET /home" []).context)], B)] ∧
        B.context.traceID = (T.startSpan (stA 0) "GET /home" []).context.traceID ∧
        B.context.parentSpanID = some (T.startSpan (stA 0) "GET /home" []).context.spanID ∧
        B.context.spanID ≠ (T.startSpan (stA 0) "GET /home" []).context.spanID ∧
        ∀ q2 ∈ requestsSent ((serve T envB stB ⟨"GET", ⟨"", "", path⟩,
            wire (T.inject (stA k) (T.startSpan (stA 0) "GET /home" []).context
              Format.textMap []).1⟩).events ++
            (serve T envB stB ⟨"GET", ⟨"", "", path⟩,
            wire (T.inject (stA k) (T.startSpan (stA 0) "GET /home" []).context
              Format.textMap []).1⟩).spawned),
          ∃ C : Span,
            mux (deliver wire q2).url.path = Handler.db ∧
            spanStarts (serve T envC stC (deliver wire q2)).events =
              [("GET /db", [StartSpanOption.childOf (some B.context)], C)] ∧
            C.context.traceID = (T.startSpan (stA 0) "GET /home" []).context.traceID ∧
            C.context.parentSpanID = some B.context.spanID ∧
            C.context.parentSpanID ≠
                some (T.startSpan (stA 0) "GET /home" []).context.spanID ∧
            C.context.spanID ≠ B.context.spanID := by
    intro k path hpath hinj
    have hxB := hRound (stA k) (stB 0) (T.startSpan (stA 0) "GET /home" []).context hinj
    have hserveB : serve T envB stB ⟨"GET", ⟨"", "", path⟩,
        wire (T.inject (stA k) (T.startSpan (stA 0) "GET /home" []).context
          Format.textMap []).1⟩ =
        serviceHandler T envB stB ⟨"GET", ⟨"", "", path⟩,
        wire (T.inject (stA k) (T.startSpan (stA 0) "GET /home" []).context
          Format.textMap []).1⟩ := by
      unfold serve; simp only [hpath]; rfl
    rw [hserveB]
    have hB := hChild (stB 1) ("GET" ++ " " ++ path)
      (T.startSpan (stA 0) "GET /home" []).context
    refine ⟨T.startSpan (stB 1) ("GET" ++ " " ++ path)
      [StartSpanOption.childOf (some (T.startSpan (stA 0) "GET /home" []).context)],
      ?_, hB.1, hB.2.1, hB.2.2, ?_⟩
    · rw [serviceHandler_spanStarts]
      simp only [hxB, if_true]
      rfl
    · intro q2 hq2
      rw [serviceHandler_spawned, List.append_nil] at hq2
      obtain ⟨hinj2, rfl⟩ := serviceHandler_request_shape T envB stB _ _ hxB q2 hq2
      have hxC := hRound (stB 2) (stC 0) _ hinj2
      have hpathC : mux (deliver wire ⟨"GET", parseURL dbURL,
          (T.inject (stB 2) (T.startSpan (stB 1) ("GET" ++ " " ++ path)
            [StartSpanOption.childOf (some (T.startSpan (stA 0) "GET /home" []).context)]).context
            Format.textMap []).1⟩).url.path = Handler.db := by
        show mux (parseURL dbURL).path = Handler.db
        decide
      have hserveC : serve T envC stC (deliver wire ⟨"GET", parseURL dbURL,
          (T.inject (stB 2) (T.startSpan (stB 1) ("GET" ++ " " ++ path)
            [StartSpanOption.childOf (some (T.startSpan (stA 0) "GET /home" []).context)]).context
            Format.textMap []).1⟩) =
          dbHandler T envC stC (deliver wire ⟨"GET", parseURL dbURL,
          (T.inject (stB 2) (T.startSpan (stB 1) ("GET" ++ " " ++ path)
            [StartSpanOption.childOf (some (T.startSpan (stA 0) "GET /home" []).context)]).context
            Format.textMap []).1⟩) := by
        unfold serve; rw [hpathC]; rfl
      have hC := hChild (stC 1) "GET /db" (T.startSpan (stB 1) ("GET" ++ " " ++ path)
            [StartSpanOption.childOf (some (T.startSpan (stA 0) "GET /home" []).context)]).context
      refine ⟨T.startSpan (stC 1) "GET /db" [StartSpanOption.childOf (some
        (T.startSpan (stB 1) ("GET" ++ " " ++ path)
          [StartSpanOption.childOf (some (T.startSpan (stA 0) "GET /home" []).context)]).context)],
        hpathC, ?_, ?_, hC.2.1, ?_, hC.2.2⟩
      · rw [hserveC]
        exact dbHandler_spanStarts T envC stC _ _ hxC
      · rw [hC.1]; exact hB.1
      · intro heq
        rw [hC.2.1] at heq
        exact hB.2.2 (Option.some.inj heq)
  have hpa : (parseURL asyncURL).path = "/async" := by decide
  have hps : (parseURL serviceURL).path = "/service" := by decide
  intro q hq
  rcases homeHandler_request_shape T envA stA r q hq with ⟨hinj, rfl⟩ | ⟨hinj, rfl⟩
  · obtain ⟨B, h1, h2, h3, h4, h5⟩ := hop 1 "/async" (by decide) hinj
    simp only [deliver, hpa]
    exact ⟨"GET /async", B, by decide, Or.inl rfl, h1, h2, h3, h4, h5⟩
  · obtain ⟨B, h1, h2, h3, h4, h5⟩ := hop 2 "/service" (by decide) hinj
    simp only [deliver, hps]
    exact ⟨"GET /service", B, by decide, Or.inr rfl, h1, h2, h3, h4, h5⟩

/-- Claim C6 (amended) at `headerTracer` over the transport `netHTTP`, for a
`/home` request without headers: the assumptions hold and so does the chain; on
the synchronous branch the three spans are `GET /home` with identifiers
(1, 1, no parent), `GET /service` with (1, 11, parent 1) and `GET /db` with
(1, 21, parent 11). -/
theorem trace_chain_witness :
    (spanStarts (serve headerTracer (calmEnv 0) (alone 1) (inbound "/home" [])).events =
        [("GET /home", [], ⟨"GET /home", ⟨1, 1, none⟩⟩)] ∧
      requestsSent (serve headerTracer (calmEnv 0) (alone 1) (inbound "/home" [])).events =
        [⟨"GET", parseURL serviceURL,
          [("Ot-Tracer-Spanid", "1"), ("Ot-Tracer-Traceid", "1")]⟩] ∧
      spanStarts (serve headerTracer (calmEnv 0) (alone 10)
          (deliver netHTTP ⟨"GET", parseURL serviceURL,
            [("Ot-Tracer-Spanid", "1"), ("Ot-Tracer-Traceid", "1")]⟩)).events =
        [("GET /service", [StartSpanOption.childOf (some ⟨1, 1, none⟩)],
          ⟨"GET /service", ⟨1, 11, some 1⟩⟩)] ∧
      requestsSent (serve headerTracer (calmEnv 0) (alone 10)
          (deliver netHTTP ⟨"GET", parseURL serviceURL,
            [("Ot-Tracer-Spanid", "1"), ("Ot-Tracer-Traceid", "1")]⟩)).events =
        [⟨"GET", parseURL dbURL,
          [("Ot-Tracer-Parentid", "1"), ("Ot-Tracer-Spanid", "11"),
           ("Ot-Tracer-Traceid", "1")]⟩] ∧
      spanStarts (serve headerTracer (calmEnv 0) (alone 20)
          (deliver netHTTP ⟨"GET", parseURL dbURL,
            [("Ot-Tracer-Parentid", "1"), ("Ot-Tracer-Spanid", "11"),
             ("Ot-Tracer-Traceid", "1")]⟩)).events =
        [("GET /db", [StartSpanOption.childOf (some ⟨1, 11, some 1⟩)],
          ⟨"GET /db", ⟨1, 21, some 11⟩⟩)]) ∧
    ∃ A : Span,
      spanStarts (serve headerTracer (calmEnv 0) (alone 1) (inbound "/home" [])).events =
        [("GET /home", [], A)] ∧
      A.context.parentSpanID = none ∧
      ∀ q ∈ requestsSent ((serve headerTracer (calmEnv 0) (alone 1)
            (inbound "/home" [])).events ++
          (serve headerTracer (calmEnv 0) (alone 1) (inbound "/home" [])).spawned),
        ∃ (opB : String) (B : Span),
          mux (deliver netHTTP q).url.path = Handler.service ∧
          (opB = "GET /async" ∨ opB = "GET /service") ∧
          spanStarts (serve headerTracer (calmEnv 0) (alone 10) (deliver netHTTP q)).events =
            [(opB, [StartSpanOption.childOf (some A.context)], B)] ∧
          B.context.traceID = A.context.traceID ∧
          B.context.parentSpanID = some A.context.spanID ∧
          B.context.spanID ≠ A.context.spanID ∧
          ∀ q2 ∈ requestsSent ((serve headerTracer (calmEnv 0) (alone 10)
                (deliver netHTTP q)).events ++
              (serve headerTracer (calmEnv 0) (alone 10) (deliver netHTTP q)).spawned),
            ∃ C : Span,
              mux (deliver netHTTP q2).url.path = Handler.db ∧
              spanStarts (serve headerTracer (calmEnv 0) (alone 20)
                  (deliver netHTTP q2)).events =
                [("GET /db", [StartSpanOption.childOf (some B.context)], C)] ∧
              C.context.traceID = A.context.traceID ∧
              C.context.parentSpanID = some B.context.spanID ∧
              C.context.parentSpanID ≠ some A.context.spanID ∧
              C.context.spanID ≠ B.context.spanID :=
  ⟨by decide,
   trace_chain headerTracer netHTTP headerTracer_netHTTP_roundtrip headerTracer_childOf
    headerTracer_root (calmEnv 0) (calmEnv 0) (calmEnv 0) (alone 1) (alone 10) (alone 20)
    (inbound "/home" []) rfl⟩

/-! ## The listening address and the downstream URLs -/

theorem toString_nat_eq_8080 (n : Nat) (h : toString n = "8080") : n = 8080 := by
  have h1 := readNat_toString n
  rw [h] at h1
  have h2 : readNat "8080" = some 8080 := by decide
  rw [h2] at h1
  exact (Option.some.inj h1).symm

theorem toString_int_eq_8080 (port : Int) (h : toString port = "8080") : port = 8080 := by
  cases port with
  | ofNat n =>
    have h1 : toString n = "8080" := h
    rw [toString_nat_eq_8080 n h1]
    rfl
  | negSucc m =>
    have h1 : "-" ++ toString (m + 1) = "8080" := h
    have h2 := congrArg String.data h1
    rw [String.data_append] at h2
    have h3 : "-".data = ['-'] := rfl
    have h4 : "8080".data = ['8', '0', '8', '0'] := rfl
    rw [h3, h4] at h2
    have h5 : '-' = '8' := (List.cons.inj h2).1
    exact absurd h5 (by decide)

theorem listenAddr_matches (port : Int) :
    "localhost" ++ listenAddr port = "localhost:8080" ↔ port = 8080 := by
  constructor
  · intro h
    have h2 := congrArg String.data h
    unfold listenAddr at h2
    rw [String.data_append, String.data_append] at h2
    have e1 : "localhost:8080".data = "localhost".data ++ (":".data ++ "8080".data) := by decide
    rw [e1] at h2
    have h3 := List.append_cancel_left (List.append_cancel_left h2)
    exact toString_int_eq_8080 port (String.ext h3)
  · intro h
    subst h
    decide

/-- Claim C10.  For every value `port` of the `-port` flag, `main` listens on
the address `:port` (the decimal numeral of `port` after a colon), and the
requests the handlers send go to the fixed URLs `http://localhost:8080/async`,
`http://localhost:8080/service` (`homeHandler`) and `http://localhost:8080/db`
(`serviceHandler`), whatever `port` is.  The host and port of each of these
URLs is `localhost` followed by the listening address if and only if
`port = 8080`. -/
theorem downstream_urls_ignore_port (port : Int) :
    listenAddr port = ":" ++ toString port ∧
    (∀ (σ : Type) (T : Tracer σ) (env : Env) (st : Nat → σ) (r : Request),
      (∀ q ∈ requestsSent (homeHandler T env st r).spawned, q.url = parseURL asyncURL) ∧
      (∀ q ∈ requestsSent (homeHandler T env st r).events, q.url = parseURL serviceURL) ∧
      (∀ q ∈ requestsSent (serviceHandler T env st r).events, q.url = parseURL dbURL) ∧
      requestsSent (serviceHandler T env st r).spawned = [] ∧
      requestsSent (dbHandler T env st r).events = [] ∧
      requestsSent (dbHandler T env st r).spawned = []) ∧
    asyncURL = "http://localhost:8080/async" ∧
    serviceURL = "http://localhost:8080/service" ∧
    dbURL = "http://localhost:8080/db" ∧
    (∀ u ∈ [asyncURL, serviceURL, dbURL],
      ((parseURL u).host = "localhost" ++ listenAddr port ↔ port = 8080)) := by
  refine ⟨rfl, ?_, rfl, rfl, rfl, ?_⟩
  · intro σ T env st r
    refine ⟨?_, ?_, ?_, ?_, ?_, ?_⟩
    · unfold homeHandler
      simp only []
      (repeat' split) <;> simp_all [requestsSent, newRequest]
    · unfold homeHandler
      simp only []
      (repeat' split) <;> simp_all [requestsSent, newRequest]
    · unfold serviceHandler
      simp only []
      (repeat' split) <;> simp_all [requestsSent, newRequest]
    · unfold serviceHandler
      simp only []
      (repeat' split) <;> simp_all [requestsSent]
    · unfold dbHandler
      simp only []
      (repeat' split) <;> simp_all [requestsSent]
    · unfold dbHandler
      simp only []
      (repeat' split) <;> simp_all [requestsSent]
  · have ha : (parseURL asyncURL).host = "localhost:8080" := by decide
    have hs : (parseURL serviceURL).host = "localhost:8080" := by decide
    have hd : (parseURL dbURL).host = "localhost:8080" := by decide
    intro u hu
    simp only [List.mem_cons, List.mem_singleton, List.not_mem_nil, or_false] at hu
    rcases hu with rfl | rfl | rfl
    · rw [ha]; exact ⟨fun h => (listenAddr_matches port).1 h.symm,
        fun h => ((listenAddr_matches port).2 h).symm⟩
    · rw [hs]; exact ⟨fun h => (listenAddr_matches port).1 h.symm,
        fun h => ((listenAddr_matches port).2 h).symm⟩
    · rw [hd]; exact ⟨fun h => (listenAddr_matches port).1 h.symm,
        fun h => ((listenAddr_matches port).2 h).symm⟩

end OpentracingExample
